import Mathlib

/-!
Verification of the Cal.com webhook intake and dispatcher of discuno
(`POST` and `storeBooking` in the webhook route).

The handler is embedded shallowly.  External collaborators — the HMAC
primitive, `JSON.parse`, the zod schema `CalcomBookingPayloadSchema`,
`createLocalBooking`, `refundStripePaymentIntent`, `createAnalyticsEvent`,
`new Date(...)` and `Number(...)` — are parameters gathered in an `Env`
record, so every theorem quantifies over their behaviour.  Side effects
(persistence, refund and analytics calls, and the two log lines the spec
singles out) are recorded in an explicit effect trace.  The one JavaScript
exception the handler can leak — `crypto.timingSafeEqual` throwing on
buffers of unequal length, outside any try/catch — is modelled with
`Except`: `.error` is an uncaught exception escaping the handler, `.ok` an
HTTP response together with the effect trace.
-/

namespace Calcom

/-- An attendee record as produced by schema validation.
Modelled from the spec: the schema module is not under the visible
sources; §3 lists each attendee as name, email, optional phone, timezone. -/
structure Attendee where
  name : String
  email : String
  phoneNumber : Option String
  timeZone : String
deriving DecidableEq, Repr

/-- The metadata bag of a payload: optional payment id, optional mentor and
actor user ids, optional video-call URL (spec §3).  Fields the handler
reads with a JavaScript truthiness test are `Option String`; an absent
JSON key is `none`. -/
structure Metadata where
  paymentId : Option String
  mentorUserId : Option String
  actorUserId : Option String
  videoCallUrl : Option String
deriving DecidableEq, Repr

/-- Organizer as produced by schema validation (spec §3: email, username, name;
the organizer's user id is taken from the metadata bag by the handler). -/
structure Organizer where
  email : String
  username : String
  name : String
deriving DecidableEq, Repr

/-- The raw, unvalidated `payload` object of a webhook event.  The
dispatcher reads only `payload.metadata` directly; everything else in the
JSON object is kept opaque in `rest` and is consumed only through the
schema-validation collaborator. -/
structure CalcomPayload where
  metadata : Metadata
  rest : String
deriving DecidableEq, Repr

/-- `validation.data`: the result of `CalcomBookingPayloadSchema.safeParse`.
Modelled from the spec: the schema module is not under the visible sources;
§3 gives the validated shape (provider booking id, uid, title, attendees,
start time, duration in minutes, organizer, event-type id, metadata). -/
structure CalcomBookingData where
  bookingId : Nat
  uid : String
  title : String
  description : Option String
  attendees : List Attendee
  startTime : String
  length : Int
  organizer : Organizer
  eventTypeId : Nat
  metadata : Metadata
deriving DecidableEq, Repr

/-- A parsed webhook event: `{ triggerEvent, payload }`. -/
structure CalcomWebhookEvent where
  triggerEvent : String
  payload : CalcomPayload
deriving DecidableEq, Repr

/-- Organizer block of the `createLocalBooking` argument. -/
structure OrganizerInput where
  userId : Option String
  email : String
  username : String
  name : String
deriving DecidableEq, Repr

/-- Attendee block of the `createLocalBooking` argument. -/
structure AttendeeInput where
  name : String
  email : String
  phoneNumber : Option String
  timeZone : String
deriving DecidableEq, Repr

/-- The argument the handler passes to `createLocalBooking`.  JavaScript
`Date` values are embedded as their epoch-millisecond value (`getTime`). -/
structure LocalBookingInput where
  calcomBookingId : Nat
  calcomUid : String
  title : String
  description : Option String
  startTime : Int
  duration : Int
  endTime : Int
  meetingUrl : Option String
  calcomEventTypeId : Nat
  paymentId : Option Int
  organizer : OrganizerInput
  attendee : AttendeeInput
  webhookPayload : CalcomPayload
deriving DecidableEq, Repr

/-- The persisted record returned by the persistence collaborator; the
handler only echoes it in the 201 body (and logs `booking.id`). -/
structure LocalBooking where
  id : Nat
deriving DecidableEq, Repr

/-- The argument of `createAnalyticsEvent`. -/
structure AnalyticsInput where
  eventType : String
  targetUserId : String
  actorUserId : Option String
deriving DecidableEq, Repr

/-- JSON response bodies the handler can produce. -/
inductive RespBody where
  | error (msg : String)
  | received
  | booking (b : LocalBooking)
deriving DecidableEq, Repr

/-- An HTTP response: status code and JSON body.  `Response.json(x)` with
no init is status 200. -/
structure WebResponse where
  status : Nat
  body : RespBody
deriving DecidableEq, Repr

/-- Observable side effects of one request, in order: the three external
calls that change or record state, plus the two log lines the spec names
(raw-payload log on storage failure, event-kind log on dispatch failure). -/
inductive Effect where
  | persistBooking (input : LocalBookingInput)
  | refund (paymentId : String)
  | analytics (input : AnalyticsInput)
  | logRawPayload (p : CalcomPayload)
  | logDispatchError (kind : String)
deriving DecidableEq, Repr

/-- Recognizer for analytics effects, used to count emissions. -/
def Effect.isAnalytics : Effect → Bool
  | .analytics _ => true
  | _ => false

/-- A JavaScript exception escaping the handler uncaught.
`crypto.timingSafeEqual` throws a `RangeError` when its buffers have
different lengths. -/
inductive JsError where
  | rangeError
deriving DecidableEq, Repr

/-- External collaborators of the handler, one field per imported function
(crypto HMAC, JSON.parse, the zod schema, Date / Number coercions, the
persistence queries, the Stripe refund action, analytics). -/
structure Env where
  hmacSha256Hex : String → String
  parseJson : String → Option CalcomWebhookEvent
  safeParse : CalcomPayload → Option CalcomBookingData
  dateMillis : String → Int
  jsNumber : String → Int
  createLocalBooking : LocalBookingInput → Except String LocalBooking
  refundStripePaymentIntent : String → Except String Unit
  createAnalyticsEvent : AnalyticsInput → Except String Unit

/-- An incoming request: the optional `x-cal-signature-256` header and the
raw body text. -/
structure WebRequest where
  signatureHeader : Option String
  bodyText : String
deriving DecidableEq, Repr

/-- `crypto.timingSafeEqual(Buffer.from(a,'utf8'), Buffer.from(b,'utf8'))`:
throws `RangeError` when the byte lengths differ, otherwise compares the
byte sequences (UTF-8 encoding is injective, so byte equality is string
equality). -/
def timingSafeEqual (a b : String) : Except JsError Bool :=
  if a.utf8ByteSize = b.utf8ByteSize then .ok (a == b) else .error .rangeError

/-- JavaScript truthiness of an optional string field: absent (`undefined`)
and the empty string are falsy. -/
def jsTruthy : Option String → Bool
  | none => false
  | some s => !(s == "")

/-- The object literal passed to `createLocalBooking` (lines 160-184 of the
route): destructured fields of `validation.data`, the parsed start date,
the computed end date `new Date(start.getTime() + length * 60000)`, and the
raw payload as audit trail. -/
def mkBookingInput (env : Env) (event : CalcomPayload) (d : CalcomBookingData)
    (attendee : Attendee) : LocalBookingInput :=
  let start := env.dateMillis d.startTime
  { calcomBookingId := d.bookingId
    calcomUid := d.uid
    title := d.title
    description := d.description
    startTime := start
    duration := d.length
    endTime := start + d.length * 60000
    meetingUrl := d.metadata.videoCallUrl
    calcomEventTypeId := d.eventTypeId
    paymentId :=
      if jsTruthy d.metadata.paymentId then
        some (env.jsNumber (d.metadata.paymentId.getD ""))
      else none
    organizer :=
      { userId := d.metadata.mentorUserId
        email := d.organizer.email
        username := d.organizer.username
        name := d.organizer.name }
    attendee :=
      { name := attendee.name
        email := attendee.email
        phoneNumber := attendee.phoneNumber
        timeZone := attendee.timeZone }
    webhookPayload := event }

/-- `storeBooking` (lines 135-194): validate the payload against the
schema; on failure 400.  On success destructure `const [attendee] =
attendees` — if the list is empty the field accesses on `undefined` throw a
`TypeError` that the surrounding try/catch turns into the 500 branch with
the raw payload logged.  Otherwise call `createLocalBooking`; on success
respond 201 with the created record, on failure respond 500 and log the
raw payload. -/
def storeBooking (env : Env) (event : CalcomPayload) : WebResponse × List Effect :=
  match env.safeParse event with
  | none => (⟨400, .error "Invalid booking payload"⟩, [])
  | some data =>
    match data.attendees with
    | [] => (⟨500, .error "Failed to process booking"⟩, [.logRawPayload event])
    | attendee :: _ =>
      let input := mkBookingInput env event data attendee
      match env.createLocalBooking input with
      | .error _ =>
        (⟨500, .error "Failed to process booking"⟩,
          [.persistBooking input, .logRawPayload event])
      | .ok booking => (⟨201, .booking booking⟩, [.persistBooking input])

/-- Outcome of the `switch` inside the dispatch `try` block: an explicit
`return` of a response, a `break` falling through to the final
`{received: true}`, or an exception propagating to the outer `catch`. -/
inductive DispatchOutcome where
  | resp (r : WebResponse)
  | fallthrough
  | thrown (msg : String)
deriving DecidableEq, Repr

/-- The `switch (triggerEvent)` body (lines 72-125).  `BOOKING_CREATED`
returns `storeBooking`'s response.  The no-show case requires a truthy
`payload.metadata.paymentId` (400 otherwise), then awaits the refund inside
its own try/catch (its failure becomes the distinct 500).  The four
log-only cases and the default break with no effect.  `MEETING_ENDED`
awaits `createAnalyticsEvent` when `payload.metadata.mentorUserId` is
truthy; that call is not wrapped, so its failure is thrown to the outer
catch. -/
def dispatch (env : Env) (triggerEvent : String) (payload : CalcomPayload) :
    DispatchOutcome × List Effect :=
  if triggerEvent = "BOOKING_CREATED" then
    let sb := storeBooking env payload
    (.resp sb.1, sb.2)
  else if triggerEvent = "AFTER_HOSTS_CAL_VIDEO_NO_SHOW" then
    if !(jsTruthy payload.metadata.paymentId) then
      (.resp ⟨400, .error "Missing paymentId"⟩, [])
    else
      let pid := payload.metadata.paymentId.getD ""
      match env.refundStripePaymentIntent pid with
      | .error _ => (.resp ⟨500, .error "Failed to process refund"⟩, [.refund pid])
      | .ok _ => (.fallthrough, [.refund pid])
  else if triggerEvent = "RECORDING_TRANSCRIPTION_GENERATED" then (.fallthrough, [])
  else if triggerEvent = "RECORDING_READY" then (.fallthrough, [])
  else if triggerEvent = "MEETING_STARTED" then (.fallthrough, [])
  else if triggerEvent = "MEETING_ENDED" then
    if jsTruthy payload.metadata.mentorUserId then
      let inp : AnalyticsInput :=
        { eventType := "COMPLETED_BOOKING"
          targetUserId := payload.metadata.mentorUserId.getD ""
          actorUserId := payload.metadata.actorUserId }
      match env.createAnalyticsEvent inp with
      | .error e => (.thrown e, [.analytics inp])
      | .ok _ => (.fallthrough, [.analytics inp])
    else (.fallthrough, [])
  else if triggerEvent = "BOOKING_CANCELED" then (.fallthrough, [])
  else (.fallthrough, [])

/-- The `POST` handler (lines 38-133): read the signature header (empty
string when absent), HMAC the raw body, compare with `timingSafeEqual`
(outside any try/catch — its `RangeError` escapes the handler); on
mismatch 400.  Then `JSON.parse` in a try/catch (400 on failure), then the
dispatch `try`/`switch`/`catch`: a thrown dispatch error yields the
generic 500 with the event kind logged; falling through yields
200 `{received: true}`. -/
def POST (env : Env) (req : WebRequest) : Except JsError (WebResponse × List Effect) :=
  let signature := req.signatureHeader.getD ""
  let expectedSignature := env.hmacSha256Hex req.bodyText
  match timingSafeEqual expectedSignature signature with
  | .error e => .error e
  | .ok ok =>
    if !ok then .ok (⟨400, .error "Invalid signature"⟩, [])
    else
      match env.parseJson req.bodyText with
      | none => .ok (⟨400, .error "Invalid payload"⟩, [])
      | some event =>
        match dispatch env event.triggerEvent event.payload with
        | (.resp r, effs) => .ok (r, effs)
        | (.fallthrough, effs) => .ok (⟨200, .received⟩, effs)
        | (.thrown _, effs) =>
          .ok (⟨500, .error "Failed to process webhook"⟩,
            effs ++ [.logDispatchError event.triggerEvent])

/-! Concrete fixtures: a sample digest, environments and events used to
evaluate the handler on closed inputs. -/

/-- A 64-character hex string standing for an HMAC-SHA-256 hex digest. -/
def digest64 : String :=
  "0123456789abcdef0123456789abcdef0123456789abcdef0123456789abcdef"

/-- Another 64-character hex string, different from `digest64`. -/
def otherSig64 : String :=
  "ffffffffffffffffffffffffffffffffffffffffffffffffffffffffffffffff"

/-- A metadata bag with every optional field absent. -/
def emptyMetadata : Metadata := ⟨none, none, none, none⟩

/-- A default environment for closed evaluations. -/
def baseEnv : Env where
  hmacSha256Hex := fun _ => digest64
  parseJson := fun _ => none
  safeParse := fun _ => none
  dateMillis := fun _ => 0
  jsNumber := fun _ => 0
  createLocalBooking := fun _ => Except.error "db down"
  refundStripePaymentIntent := fun _ => Except.ok ()
  createAnalyticsEvent := fun _ => Except.ok ()

/-- A sample attendee. -/
def sampleAttendee : Attendee := ⟨"Ada", "ada@example.com", none, "UTC"⟩

/-- A sample organizer. -/
def sampleOrganizer : Organizer := ⟨"org@example.com", "mentor", "Mentor"⟩

/-- A sample schema-validated booking payload. -/
def sampleData : CalcomBookingData where
  bookingId := 11
  uid := "uid-1"
  title := "Session"
  description := none
  attendees := [sampleAttendee]
  startTime := "2025-01-01T10:00:00Z"
  length := 30
  organizer := sampleOrganizer
  eventTypeId := 5
  metadata := emptyMetadata

/-- A sample raw payload. -/
def samplePayload : CalcomPayload := ⟨emptyMetadata, "raw"⟩

/-- An environment whose schema validation accepts `samplePayload` as
`sampleData` and whose persistence succeeds. -/
def envStoreOk : Env :=
  { baseEnv with
    safeParse := fun _ => some sampleData
    createLocalBooking := fun _ => Except.ok ⟨1⟩
    dateMillis := fun _ => 1735725600000 }

/-- An environment with a short constant digest and no parseable body. -/
def envShortSig : Env := { baseEnv with hmacSha256Hex := fun _ => "sig" }

/-- A no-show event whose metadata has no payment id. -/
def evNoShow : CalcomWebhookEvent :=
  ⟨"AFTER_HOSTS_CAL_VIDEO_NO_SHOW", ⟨emptyMetadata, "p"⟩⟩

/-- Environment delivering `evNoShow` with a matching signature. -/
def envNoShow : Env := { envShortSig with parseJson := fun _ => some evNoShow }

/-- Metadata with a mentor user id and an actor user id. -/
def mentorMeta : Metadata := ⟨none, some "42", some "7", none⟩

/-- A meeting-ended event carrying a mentor user id. -/
def evMeeting : CalcomWebhookEvent := ⟨"MEETING_ENDED", ⟨mentorMeta, "p"⟩⟩

/-- Environment delivering `evMeeting`, analytics succeeding. -/
def envMeeting : Env := { envShortSig with parseJson := fun _ => some evMeeting }

/-- Environment delivering `evMeeting`, analytics call failing. -/
def envMeetingFail : Env :=
  { envMeeting with createAnalyticsEvent := fun _ => Except.error "boom" }

/-- An event whose kind no case of the switch recognizes. -/
def evUnknown : CalcomWebhookEvent := ⟨"SOMETHING_ELSE", ⟨emptyMetadata, "p"⟩⟩

/-- Environment delivering `evUnknown` with a matching signature. -/
def envUnknown : Env := { envShortSig with parseJson := fun _ => some evUnknown }

/-- The seven event kinds named by cases of the switch. -/
def handledKinds : List String :=
  ["BOOKING_CREATED", "AFTER_HOSTS_CAL_VIDEO_NO_SHOW",
   "RECORDING_TRANSCRIPTION_GENERATED", "RECORDING_READY",
   "MEETING_STARTED", "MEETING_ENDED", "BOOKING_CANCELED"]

/-! Helper lemmas shared by the claim theorems. -/

/-- With a matching signature and a parseable body, the handler's result is
the dispatch outcome wrapped into a response. -/
theorem POST_valid_core (env : Env) (req : WebRequest) (ev : CalcomWebhookEvent)
    (hsig : env.hmacSha256Hex req.bodyText = req.signatureHeader.getD "")
    (hp : env.parseJson req.bodyText = some ev) :
    POST env req =
      (match dispatch env ev.triggerEvent ev.payload with
       | (.resp r, effs) => .ok (r, effs)
       | (.fallthrough, effs) => .ok (⟨200, .received⟩, effs)
       | (.thrown _, effs) =>
         .ok (⟨500, .error "Failed to process webhook"⟩,
           effs ++ [.logDispatchError ev.triggerEvent])) := by
  unfold POST timingSafeEqual
  rw [hsig, hp]
  simp

/-! Claim theorems. -/

/-- C1 (counterexample): a request whose computed digest does not match the
supplied signature does not always get a 400 response: with the signature
header absent, the supplied signature defaults to `""`, whose byte length
differs from the 64-byte digest, so `timingSafeEqual` throws and the
handler raises an uncaught exception instead of responding. -/
theorem signature_mismatch_not_always_400 :
    baseEnv.hmacSha256Hex "body" ≠ (WebRequest.mk none "body").signatureHeader.getD "" ∧
    POST baseEnv ⟨none, "body"⟩ = .error .rangeError := by
  constructor
  · decide
  · rfl

/-- C1 (amended): for every request whose supplied signature has the same
UTF-8 byte length as the computed HMAC hex digest but does not match it,
the handler responds 400 with an error body and performs no further
processing: the result holds for every environment (so the body is never
JSON-parsed and no dispatch happens) and the effect trace is empty (no
persistence call). -/
theorem signature_mismatch_equal_length_responds_400 (env : Env) (req : WebRequest)
    (hlen : (env.hmacSha256Hex req.bodyText).utf8ByteSize =
      (req.signatureHeader.getD "").utf8ByteSize)
    (hne : env.hmacSha256Hex req.bodyText ≠ req.signatureHeader.getD "") :
    POST env req = .ok (⟨400, .error "Invalid signature"⟩, []) := by
  have hbeq : (env.hmacSha256Hex req.bodyText == req.signatureHeader.getD "") = false :=
    beq_eq_false_iff_ne.mpr hne
  simp [POST, timingSafeEqual, hlen, hbeq]

/-- C1 (witness): the amended theorem evaluated at a concrete mismatching
signature of the right length. -/
theorem signature_mismatch_equal_length_responds_400_witness :
    POST baseEnv ⟨some otherSig64, "body"⟩ =
      .ok (⟨400, .error "Invalid signature"⟩, []) :=
  signature_mismatch_equal_length_responds_400 baseEnv ⟨some otherSig64, "body"⟩
    (by decide) (by decide)

/-- C9: when the supplied signature (defaulting to `""` when the header is
absent) has a UTF-8 byte length different from the 64-byte digest,
`timingSafeEqual` throws on unequal-length buffers, outside any try/catch,
so the handler raises an uncaught exception rather than returning the 400
invalid-signature response. -/
theorem signature_length_mismatch_throws (env : Env) (req : WebRequest)
    (hd : (env.hmacSha256Hex req.bodyText).utf8ByteSize = 64)
    (hs : (req.signatureHeader.getD "").utf8ByteSize ≠ 64) :
    POST env req = .error .rangeError := by
  simp [POST, timingSafeEqual, hd, Ne.symm hs]

/-- C9 (witness): concrete request with the signature header absent. -/
theorem signature_length_mismatch_throws_witness :
    POST baseEnv ⟨none, "x"⟩ = .error .rangeError :=
  signature_length_mismatch_throws baseEnv ⟨none, "x"⟩ (by decide) (by decide)

/-- C4: for every request with a valid signature whose body fails to parse
as JSON, the handler responds 400 and stops: the statement holds for every
environment and the effect trace is empty, so no dispatch and no state
change occur. -/
theorem valid_signature_unparsable_body_responds_400 (env : Env) (req : WebRequest)
    (hsig : env.hmacSha256Hex req.bodyText = req.signatureHeader.getD "")
    (hp : env.parseJson req.bodyText = none) :
    POST env req = .ok (⟨400, .error "Invalid payload"⟩, []) := by
  unfold POST timingSafeEqual
  rw [hsig, hp]
  simp

/-- C4 (witness): concrete request whose signature matches and whose body
is not JSON. -/
theorem valid_signature_unparsable_body_responds_400_witness :
    POST envShortSig ⟨some "sig", "not json"⟩ =
      .ok (⟨400, .error "Invalid payload"⟩, []) :=
  valid_signature_unparsable_body_responds_400 envShortSig ⟨some "sig", "not json"⟩
    rfl rfl

/-- C2: for a `BOOKING_CREATED` event, (i) schema failure responds 400 with
no effect; (ii) on a schema-valid payload (whose attendee list, required by
the schema, is nonempty) with the persistence call succeeding, exactly one
`LocalBooking` is persisted and the response is 201 with the created
record; (iii) when the persistence call fails the response is 500 and the
raw payload is logged; (iv) invariant: any persistence call implies the
payload passed schema validation. -/
theorem booking_created_persistence_iff_schema_valid (env : Env) (p : CalcomPayload) :
    (env.safeParse p = none →
       storeBooking env p = (⟨400, .error "Invalid booking payload"⟩, []))
    ∧ (∀ d a rest b, env.safeParse p = some d → d.attendees = a :: rest →
         env.createLocalBooking (mkBookingInput env p d a) = .ok b →
         storeBooking env p =
           (⟨201, .booking b⟩, [.persistBooking (mkBookingInput env p d a)]))
    ∧ (∀ d a rest e, env.safeParse p = some d → d.attendees = a :: rest →
         env.createLocalBooking (mkBookingInput env p d a) = .error e →
         storeBooking env p =
           (⟨500, .error "Failed to process booking"⟩,
             [.persistBooking (mkBookingInput env p d a), .logRawPayload p]))
    ∧ (∀ inp, Effect.persistBooking inp ∈ (storeBooking env p).2 →
         ∃ d, env.safeParse p = some d) := by
  refine ⟨?_, ?_, ?_, ?_⟩
  · intro h
    simp [storeBooking, h]
  · intro d a rest b hd hatt hc
    simp [storeBooking, hd, hatt, hc]
  · intro d a rest e hd hatt hc
    simp [storeBooking, hd, hatt, hc]
  · intro inp hmem
    cases h : env.safeParse p with
    | none => simp [storeBooking, h] at hmem
    | some d => exact ⟨d, rfl⟩

/-- C2 (witness): the success branch evaluated with a concrete accepting
schema and succeeding persistence. -/
theorem booking_created_persistence_iff_schema_valid_witness :
    storeBooking envStoreOk samplePayload =
      (⟨201, .booking ⟨1⟩⟩,
        [.persistBooking (mkBookingInput envStoreOk samplePayload sampleData sampleAttendee)]) :=
  (booking_created_persistence_iff_schema_valid envStoreOk samplePayload).2.1
    sampleData sampleAttendee [] ⟨1⟩ rfl rfl rfl

/-- C3: every booking record the handler passes to persistence for a
schema-valid payload has end time equal to the parsed start time plus the
duration in minutes times 60000 milliseconds. -/
theorem stored_end_time_eq_start_plus_duration (env : Env) (p : CalcomPayload)
    (d : CalcomBookingData) (hv : env.safeParse p = some d) :
    ∀ inp, Effect.persistBooking inp ∈ (storeBooking env p).2 →
      inp.endTime = env.dateMillis d.startTime + d.length * 60000 := by
  intro inp hmem
  cases hatt : d.attendees with
  | nil => simp [storeBooking, hv, hatt] at hmem
  | cons a rest =>
    cases hc : env.createLocalBooking (mkBookingInput env p d a) with
    | error e =>
      simp [storeBooking, hv, hatt, hc] at hmem
      simp [hmem, mkBookingInput]
    | ok b =>
      simp [storeBooking, hv, hatt, hc] at hmem
      simp [hmem, mkBookingInput]

/-- C3 (witness): the end time of the concretely stored record. -/
theorem stored_end_time_eq_start_plus_duration_witness :
    (mkBookingInput envStoreOk samplePayload sampleData sampleAttendee).endTime =
      envStoreOk.dateMillis sampleData.startTime + sampleData.length * 60000 :=
  stored_end_time_eq_start_plus_duration envStoreOk samplePayload sampleData rfl
    (mkBookingInput envStoreOk samplePayload sampleData sampleAttendee)
    (by decide)

/-- C5: for an authenticated, parsed `AFTER_HOSTS_CAL_VIDEO_NO_SHOW` event,
(i) with no (truthy) payment id in metadata the handler responds 400 and
attempts no refund (empty effect trace); (ii) with a payment id present the
refund action is invoked, and if it fails the handler responds 500 with the
refund-specific body; (iii) that body is distinct from the generic
dispatch-failure body. -/
theorem no_show_requires_payment_id (env : Env) (req : WebRequest)
    (ev : CalcomWebhookEvent)
    (hsig : env.hmacSha256Hex req.bodyText = req.signatureHeader.getD "")
    (hp : env.parseJson req.bodyText = some ev)
    (ht : ev.triggerEvent = "AFTER_HOSTS_CAL_VIDEO_NO_SHOW") :
    (jsTruthy ev.payload.metadata.paymentId = false →
       POST env req = .ok (⟨400, .error "Missing paymentId"⟩, []))
    ∧ (∀ pid, ev.payload.metadata.paymentId = some pid → pid ≠ "" →
         (∀ r effs, POST env req = .ok (r, effs) → Effect.refund pid ∈ effs)
         ∧ (∀ e, env.refundStripePaymentIntent pid = .error e →
              POST env req =
                .ok (⟨500, .error "Failed to process refund"⟩, [.refund pid])))
    ∧ RespBody.error "Failed to process refund" ≠
        RespBody.error "Failed to process webhook" := by
  rw [POST_valid_core env req ev hsig hp, ht]
  refine ⟨?_, ?_, by decide⟩
  · intro h
    simp [dispatch, h]
  · intro pid hpid hpne
    have hb : (pid == "") = false := beq_eq_false_iff_ne.mpr hpne
    constructor
    · intro r effs heq
      cases hrf : env.refundStripePaymentIntent pid with
      | error e =>
        simp [dispatch, hpid, jsTruthy, hb, hrf] at heq
        obtain ⟨h1, h2⟩ := heq
        subst h2
        simp
      | ok u =>
        simp [dispatch, hpid, jsTruthy, hb, hrf] at heq
        obtain ⟨h1, h2⟩ := heq
        subst h2
        simp
    · intro e he
      simp [dispatch, hpid, jsTruthy, hb, he]

/-- C5 (witness): concrete no-show event with no payment id responds 400. -/
theorem no_show_requires_payment_id_witness :
    POST envNoShow ⟨some "sig", "b"⟩ = .ok (⟨400, .error "Missing paymentId"⟩, []) :=
  (no_show_requires_payment_id envNoShow ⟨some "sig", "b"⟩ evNoShow rfl rfl rfl).1 rfl

/-- C6: for an authenticated, parsed `MEETING_ENDED` event, (i) without a
(truthy) mentor user id the handler responds 200 with an empty effect trace
(no analytics emitted); (ii) with a mentor user id, exactly one analytics
event is emitted in every outcome: the effect trace filtered to analytics
calls is the single `COMPLETED_BOOKING` emission targetting that mentor
id, passing the actor user id through when present (null otherwise). -/
theorem meeting_ended_analytics_emission (env : Env) (req : WebRequest)
    (ev : CalcomWebhookEvent)
    (hsig : env.hmacSha256Hex req.bodyText = req.signatureHeader.getD "")
    (hp : env.parseJson req.bodyText = some ev)
    (ht : ev.triggerEvent = "MEETING_ENDED") :
    (jsTruthy ev.payload.metadata.mentorUserId = false →
       POST env req = .ok (⟨200, .received⟩, []))
    ∧ (∀ m, ev.payload.metadata.mentorUserId = some m → m ≠ "" →
         ∀ r effs, POST env req = .ok (r, effs) →
           effs.filter Effect.isAnalytics =
             [.analytics ⟨"COMPLETED_BOOKING", m, ev.payload.metadata.actorUserId⟩]) := by
  rw [POST_valid_core env req ev hsig hp, ht]
  constructor
  · intro h
    simp [dispatch, h]
  · intro m hm hmne r effs heq
    have hb : (m == "") = false := beq_eq_false_iff_ne.mpr hmne
    cases ha : env.createAnalyticsEvent
        ⟨"COMPLETED_BOOKING", m, ev.payload.metadata.actorUserId⟩ with
    | error e =>
      simp [dispatch, hm, jsTruthy, hb, ha] at heq
      obtain ⟨h1, h2⟩ := heq
      subst h2
      simp [Effect.isAnalytics]
    | ok u =>
      simp [dispatch, hm, jsTruthy, hb, ha] at heq
      obtain ⟨h1, h2⟩ := heq
      subst h2
      simp [Effect.isAnalytics]

/-- C6 (witness): concrete meeting-ended event with mentor id 42 and actor
id 7, analytics succeeding: the trace holds exactly that emission. -/
theorem meeting_ended_analytics_emission_witness :
    ([Effect.analytics ⟨"COMPLETED_BOOKING", "42", some "7"⟩]).filter
        Effect.isAnalytics =
      [Effect.analytics ⟨"COMPLETED_BOOKING", "42", some "7"⟩] :=
  (meeting_ended_analytics_emission envMeeting ⟨some "sig", "b"⟩ evMeeting rfl rfl
      rfl).2 "42" rfl (by decide) ⟨200, .received⟩
    [Effect.analytics ⟨"COMPLETED_BOOKING", "42", some "7"⟩] rfl

/-- C7: an authenticated, parsed event whose kind is one of the four
log-only kinds, or is recognized by no case of the switch, produces no
state change (empty effect trace) and a 200 response with the received
body; an unrecognized kind is not an error. -/
theorem unhandled_kinds_no_state_change_200 (env : Env) (req : WebRequest)
    (ev : CalcomWebhookEvent)
    (hsig : env.hmacSha256Hex req.bodyText = req.signatureHeader.getD "")
    (hp : env.parseJson req.bodyText = some ev)
    (ht : ev.triggerEvent = "RECORDING_TRANSCRIPTION_GENERATED" ∨
      ev.triggerEvent = "RECORDING_READY" ∨
      ev.triggerEvent = "MEETING_STARTED" ∨
      ev.triggerEvent = "BOOKING_CANCELED" ∨
      ev.triggerEvent ∉ handledKinds) :
    POST env req = .ok (⟨200, .received⟩, []) := by
  rw [POST_valid_core env req ev hsig hp]
  rcases ht with h | h | h | h | h
  · rw [h]; simp [dispatch]
  · rw [h]; simp [dispatch]
  · rw [h]; simp [dispatch]
  · rw [h]; simp [dispatch]
  · simp [handledKinds] at h
    obtain ⟨h1, h2, h3, h4, h5, h6, h7⟩ := h
    simp [dispatch, h1, h2, h3, h4, h5, h6, h7]

/-- C7 (witness): a concrete unrecognized event kind is acknowledged with
200 and no effect. -/
theorem unhandled_kinds_no_state_change_200_witness :
    POST envUnknown ⟨some "sig", "b"⟩ = .ok (⟨200, .received⟩, []) :=
  unhandled_kinds_no_state_change_200 envUnknown ⟨some "sig", "b"⟩ evUnknown rfl rfl
    (Or.inr (Or.inr (Or.inr (Or.inr (by decide)))))

/-- C8: for an authenticated, parsed event, any failure thrown during
dispatch and not handled by a more specific branch yields the generic 500
body, and the triggering event kind is logged (the dispatch-error log entry
is in the final effect trace). -/
theorem dispatch_thrown_responds_500_generic (env : Env) (req : WebRequest)
    (ev : CalcomWebhookEvent) (msg : String) (effs : List Effect)
    (hsig : env.hmacSha256Hex req.bodyText = req.signatureHeader.getD "")
    (hp : env.parseJson req.bodyText = some ev)
    (hd : dispatch env ev.triggerEvent ev.payload = (.thrown msg, effs)) :
    POST env req = .ok (⟨500, .error "Failed to process webhook"⟩,
      effs ++ [.logDispatchError ev.triggerEvent])
    ∧ Effect.logDispatchError ev.triggerEvent ∈
        effs ++ [.logDispatchError ev.triggerEvent] := by
  refine ⟨?_, by simp⟩
  rw [POST_valid_core env req ev hsig hp, hd]

/-- C8 (witness): a concrete dispatch failure (analytics throwing during a
meeting-ended event) yields the generic 500 with the kind logged. -/
theorem dispatch_thrown_responds_500_generic_witness :
    POST envMeetingFail ⟨some "sig", "c8"⟩ =
      .ok (⟨500, .error "Failed to process webhook"⟩,
        [Effect.analytics ⟨"COMPLETED_BOOKING", "42", some "7"⟩,
         Effect.logDispatchError "MEETING_ENDED"]) :=
  (dispatch_thrown_responds_500_generic envMeetingFail ⟨some "sig", "c8"⟩ evMeeting
    "boom" [Effect.analytics ⟨"COMPLETED_BOOKING", "42", some "7"⟩] rfl rfl rfl).1

/-- C10: the analytics emission of `MEETING_ENDED` is awaited inside the
dispatch try block: when the analytics call throws, the handler responds
500 with the generic dispatch-failure body (not 200), the emission having
been recorded before the failure. -/
theorem meeting_ended_analytics_awaited_500 (env : Env) (req : WebRequest)
    (ev : CalcomWebhookEvent) (m e : String)
    (hsig : env.hmacSha256Hex req.bodyText = req.signatureHeader.getD "")
    (hp : env.parseJson req.bodyText = some ev)
    (ht : ev.triggerEvent = "MEETING_ENDED")
    (hm : ev.payload.metadata.mentorUserId = some m) (hmne : m ≠ "")
    (ha : env.createAnalyticsEvent
        ⟨"COMPLETED_BOOKING", m, ev.payload.metadata.actorUserId⟩ = .error e) :
    POST env req = .ok (⟨500, .error "Failed to process webhook"⟩,
      [.analytics ⟨"COMPLETED_BOOKING", m, ev.payload.metadata.actorUserId⟩,
       .logDispatchError "MEETING_ENDED"]) := by
  rw [POST_valid_core env req ev hsig hp, ht]
  have hb : (m == "") = false := beq_eq_false_iff_ne.mpr hmne
  simp [dispatch, hm, jsTruthy, hb, ha]

/-- C10 (witness): concrete meeting-ended event whose analytics call throws
gets the generic 500, not 200. -/
theorem meeting_ended_analytics_awaited_500_witness :
    POST envMeetingFail ⟨some "sig", "b"⟩ =
      .ok (⟨500, .error "Failed to process webhook"⟩,
        [Effect.analytics ⟨"COMPLETED_BOOKING", "42", some "7"⟩,
         Effect.logDispatchError "MEETING_ENDED"]) :=
  meeting_ended_analytics_awaited_500 envMeetingFail ⟨some "sig", "b"⟩ evMeeting
    "42" "boom" rfl rfl rfl rfl (by decide) rfl

end Calcom
